import Mathlib

/-!
Verification of the indicator computation and scoring engine of
`src/api/analyzer.py` (classes `TechnicalCalculator` and `StockAnalyzer`).

Numbers: Python floats are modelled as rationals (`ℚ`), which realises the
real-arithmetic reading of the specification ("exactly").  Strings keep the
literal Korean text of the source; the numeric interpolation inside the
human-readable `value` field of a signal (Python f-strings such as
`f"{rsi:.0f} (중립)"`) is presentation-only and is elided — only the static
text is kept.  No claim refers to the interpolated digits.

`np.std` (population standard deviation, used only for the Bollinger bands)
is irrational-valued in general and has no exact rational embedding; it is
abstracted as an explicit function parameter `stdFn` of the calculator.  No
claim depends on the value of the bands in the long-series branch, and every
theorem below quantifies over `stdFn`.
-/

namespace StockAnalysis

/-- The `Signal` dataclass of the source: indicator label, human-readable value,
sentiment string. -/
structure Signal where
  indicator : String
  value : String
  sentiment : String
deriving DecidableEq, Repr

/-- The `StockData` dataclass of the source (the fields the analysis engine
reads; every numeric field defaults to the zero sentinel, as in the source). -/
structure StockData where
  name : String := ""
  code : String := ""
  current_price : ℚ := 0
  prev_close : ℚ := 0
  volume : ℤ := 0
  market_cap : ℚ := 0
  high_52w : ℚ := 0
  low_52w : ℚ := 0
  per : ℚ := 0
  pbr : ℚ := 0
  eps : ℚ := 0
  bps : ℚ := 0
  dividend_yield : ℚ := 0
  roe : ℚ := 0
  foreign_ratio : ℚ := 0
deriving DecidableEq, Repr

/-- The `TechnicalData` dataclass of the source, with its default field values. -/
structure TechnicalData where
  ma5 : ℚ := 0
  ma20 : ℚ := 0
  ma60 : ℚ := 0
  ma120 : ℚ := 0
  rsi_14 : ℚ := 50
  macd : ℚ := 0
  macd_signal : ℚ := 0
  stochastic_k : ℚ := 50
  bb_upper : ℚ := 0
  bb_middle : ℚ := 0
  bb_lower : ℚ := 0
  volume_ma20 : ℚ := 0
  prices : List ℚ := []
  volumes : List ℤ := []
deriving DecidableEq, Repr

/-- Python `l[-n:]`: the trailing `n` elements (the whole list when
`n ≥ length`). -/
def takeLast (n : ℕ) (l : List ℚ) : List ℚ :=
  l.drop (l.length - n)

/-- Python `np.mean` over rationals: sum divided by length. -/
def mean (l : List ℚ) : ℚ :=
  l.sum / (l.length : ℚ)

/-- Python `np.diff`: one-step differences of consecutive elements. -/
def diffs : List ℚ → List ℚ
  | a :: b :: rest => (b - a) :: diffs (b :: rest)
  | _ => []

/-- Trailing-`period` average gain of `TechnicalCalculator._calculate_rsi`:
positive deltas kept, others zeroed, then the last `period` averaged. -/
def avgGain (prices : List ℚ) (period : ℕ) : ℚ :=
  mean (takeLast period ((diffs prices).map fun d => if 0 < d then d else 0))

/-- Trailing-`period` average loss of `TechnicalCalculator._calculate_rsi`:
magnitudes of negative deltas kept, others zeroed, then the last `period`
averaged. -/
def avgLoss (prices : List ℚ) (period : ℕ) : ℚ :=
  mean (takeLast period ((diffs prices).map fun d => if d < 0 then -d else 0))

/-- Source `TechnicalCalculator._calculate_rsi`. -/
def calculate_rsi (prices : List ℚ) (period : ℕ) : ℚ :=
  if prices.length < period + 1 then 50
  else if avgLoss prices period = 0 then 100
  else 100 - 100 / (1 + avgGain prices period / avgLoss prices period)

/-- The smoothing loop of `TechnicalCalculator._ema`:
`ema = price * m + ema * (1 - m)` folded over the remaining prices. -/
def emaStep (m : ℚ) (e p : ℚ) : ℚ :=
  p * m + e * (1 - m)

/-- Source `TechnicalCalculator._ema` (used with `period` 12 and 26): seeded with
`prices[-period]`, then smoothed over `prices[-period+1:]` with multiplier
`2 / (period + 1)`. -/
def ema (prices : List ℚ) (period : ℕ) : ℚ :=
  if prices.length < period then
    if 0 < prices.length then prices.getLastD 0 else 0
  else
    let m : ℚ := 2 / ((period : ℚ) + 1)
    let window := takeLast period prices
    window.tail.foldl (emaStep m) (window.headI)

/-- Source `TechnicalCalculator._calculate_macd`: MACD line `ema 12 - ema 26`,
signal line `0.8 ×` the MACD line; `(0, 0)` below 26 samples. -/
def calculate_macd (prices : List ℚ) : ℚ × ℚ :=
  if prices.length < 26 then (0, 0)
  else
    let macd_line := ema prices 12 - ema prices 26
    (macd_line, macd_line * (8 / 10))

/-- Largest element of a rational list (`np.max`; 0 on the empty list, which
the source never reaches). -/
def listMax (l : List ℚ) : ℚ :=
  l.foldl max l.headI

/-- Smallest element of a rational list (`np.min`; 0 on the empty list, which
the source never reaches). -/
def listMin (l : List ℚ) : ℚ :=
  l.foldl min l.headI

/-- Source `TechnicalCalculator._calculate_stochastic`. -/
def calculate_stochastic (prices : List ℚ) (period : ℕ) : ℚ :=
  if prices.length < period then 50
  else
    let recent := takeLast period prices
    let high := listMax recent
    let low := listMin recent
    let close := prices.getLastD 0
    if high = low then 50
    else (close - low) / (high - low) * 100

/-- Source `TechnicalCalculator.calculate_all`.  `stdFn` abstracts
`np.std(prices[-20:])` (see the module docstring). -/
def calculate_all (stdFn : List ℚ → ℚ) (prices : List ℚ) (volumes : List ℤ)
    (current_price : ℚ) : TechnicalData :=
  if prices.length < 20 then
    { prices := prices, volumes := volumes }
  else
    let ma5 := if 5 ≤ prices.length then mean (takeLast 5 prices) else current_price
    let ma20 := if 20 ≤ prices.length then mean (takeLast 20 prices) else current_price
    let ma60 := if 60 ≤ prices.length then mean (takeLast 60 prices) else current_price
    let ma120 := if 120 ≤ prices.length then mean (takeLast 120 prices) else current_price
    let mac := calculate_macd prices
    let std := if 20 ≤ prices.length then stdFn (takeLast 20 prices) else 0
    { ma5 := ma5, ma20 := ma20, ma60 := ma60, ma120 := ma120
    , rsi_14 := calculate_rsi prices 14
    , macd := mac.1, macd_signal := mac.2
    , stochastic_k := calculate_stochastic prices 14
    , bb_middle := ma20, bb_upper := ma20 + std * 2, bb_lower := ma20 - std * 2
    , volume_ma20 :=
        if volumes ≠ [] ∧ 20 ≤ volumes.length then
          mean (takeLast 20 (volumes.map fun v => (v : ℚ)))
        else 0
    , prices := prices, volumes := volumes }

/-! The technical signal rules of `StockAnalyzer._analyze_technical`, one
helper per sequential block of the Python method, in source order. -/

/-- Moving-average alignment rule (이동평균선 배열). -/
def ma_alignment_rule (tech : TechnicalData) : List Signal :=
  if 0 < tech.ma5 ∧ 0 < tech.ma20 ∧ 0 < tech.ma60 then
    if tech.ma20 < tech.ma5 ∧ tech.ma60 < tech.ma20 then
      [⟨"이동평균선 배열", "정배열 (상승추세)", "bullish"⟩]
    else if tech.ma5 < tech.ma20 ∧ tech.ma20 < tech.ma60 then
      [⟨"이동평균선 배열", "역배열 (하락추세)", "bearish"⟩]
    else
      [⟨"이동평균선 배열", "혼조세", "neutral"⟩]
  else []

/-- Price versus the 20-day moving average (20일선 대비). -/
def price_vs_ma20_rule (price : ℚ) (tech : TechnicalData) : List Signal :=
  if 0 < tech.ma20 then
    if tech.ma20 < price then [⟨"20일선 대비", "상회", "bullish"⟩]
    else [⟨"20일선 대비", "하회", "bearish"⟩]
  else []

/-- RSI rule: overbought at 70, oversold at 30. -/
def rsi_rule (tech : TechnicalData) : List Signal :=
  if 70 ≤ tech.rsi_14 then [⟨"RSI", "과매수", "bearish"⟩]
  else if tech.rsi_14 ≤ 30 then [⟨"RSI", "과매도", "bullish"⟩]
  else [⟨"RSI", "중립", "neutral"⟩]

/-- MACD rule: buy when the MACD line is above its signal line, else sell. -/
def macd_rule (tech : TechnicalData) : List Signal :=
  if tech.macd_signal < tech.macd then [⟨"MACD", "매수 신호", "bullish"⟩]
  else [⟨"MACD", "매도 신호", "bearish"⟩]

/-- Bollinger-band position rule (볼린저밴드). -/
def bollinger_rule (price : ℚ) (tech : TechnicalData) : List Signal :=
  if 0 < tech.bb_upper ∧ 0 < tech.bb_lower then
    if tech.bb_upper ≤ price then [⟨"볼린저밴드", "상단 돌파 (과열)", "bearish"⟩]
    else if price ≤ tech.bb_lower then [⟨"볼린저밴드", "하단 이탈 (과매도)", "bullish"⟩]
    else [⟨"볼린저밴드", "밴드 내 위치", "neutral"⟩]
  else []

/-- Stochastic %K rule (스토캐스틱). -/
def stochastic_rule (tech : TechnicalData) : List Signal :=
  if 80 < tech.stochastic_k then [⟨"스토캐스틱", "과매수", "bearish"⟩]
  else if tech.stochastic_k < 20 then [⟨"스토캐스틱", "과매도", "bullish"⟩]
  else [⟨"스토캐스틱", "중립", "neutral"⟩]

/-- Volume versus its 20-day average (거래량). -/
def volume_rule (volume : ℤ) (tech : TechnicalData) : List Signal :=
  if 0 < tech.volume_ma20 ∧ 0 < volume then
    let vol_ratio := (volume : ℚ) / tech.volume_ma20
    if 3 < vol_ratio then [⟨"거래량", "급증", "bullish"⟩]
    else if 3 / 2 < vol_ratio then [⟨"거래량", "증가", "bullish"⟩]
    else if vol_ratio < 1 / 2 then [⟨"거래량", "급감", "bearish"⟩]
    else [⟨"거래량", "보통", "neutral"⟩]
  else []

/-- Source `StockAnalyzer._analyze_technical`: an empty list when the current price
is zero, else the seven rules in source order. -/
def analyze_technical (stock : StockData) (tech : TechnicalData) : List Signal :=
  if stock.current_price = 0 then []
  else
    ma_alignment_rule tech ++ price_vs_ma20_rule stock.current_price tech ++
    rsi_rule tech ++ macd_rule tech ++ bollinger_rule stock.current_price tech ++
    stochastic_rule tech ++ volume_rule stock.volume tech

/-! The fundamental signal rules of `StockAnalyzer._analyze_fundamental`, one
helper per sequential block, in source order; each rule is silent when its
source field is at the zero sentinel (the Python `> 0` guards). -/

/-- PER valuation rule. -/
def per_rule (stock : StockData) : List Signal :=
  if 0 < stock.per then
    if stock.per < 10 then [⟨"PER", "저평가", "bullish"⟩]
    else if stock.per < 20 then [⟨"PER", "적정", "neutral"⟩]
    else if stock.per < 30 then [⟨"PER", "다소 고평가", "neutral"⟩]
    else [⟨"PER", "고평가", "bearish"⟩]
  else []

/-- PBR valuation rule. -/
def pbr_rule (stock : StockData) : List Signal :=
  if 0 < stock.pbr then
    if stock.pbr < 1 then [⟨"PBR", "자산가치 대비 저평가", "bullish"⟩]
    else if stock.pbr < 2 then [⟨"PBR", "적정", "neutral"⟩]
    else [⟨"PBR", "고평가", "bearish"⟩]
  else []

/-- ROE profitability rule. -/
def roe_rule (stock : StockData) : List Signal :=
  if 0 < stock.roe then
    if 15 < stock.roe then [⟨"ROE", "우수", "bullish"⟩]
    else if 10 < stock.roe then [⟨"ROE", "양호", "neutral"⟩]
    else [⟨"ROE", "미흡", "bearish"⟩]
  else []

/-- 52-week range position rule (52주 위치). -/
def week52_rule (stock : StockData) : List Signal :=
  if 0 < stock.high_52w ∧ 0 < stock.low_52w ∧ 0 < stock.current_price then
    let high_52 := max stock.high_52w stock.current_price
    let low_52 := stock.low_52w
    if low_52 < high_52 then
      let position := (stock.current_price - low_52) / (high_52 - low_52) * 100
      if 90 < position then [⟨"52주 위치", "신고가 근처", "neutral"⟩]
      else if 70 < position then [⟨"52주 위치", "고점 근처", "bearish"⟩]
      else if position < 30 then [⟨"52주 위치", "저점 근처", "bullish"⟩]
      else [⟨"52주 위치", "중간", "neutral"⟩]
    else []
  else []

/-- Foreign-ownership ratio rule (외국인 지분율); a low ratio is neutral. -/
def foreign_rule (stock : StockData) : List Signal :=
  if 0 < stock.foreign_ratio then
    if 30 < stock.foreign_ratio then [⟨"외국인 지분율", "높음", "bullish"⟩]
    else if 10 < stock.foreign_ratio then [⟨"외국인 지분율", "보통", "neutral"⟩]
    else [⟨"외국인 지분율", "낮음", "neutral"⟩]
  else []

/-- Market-capitalisation tier rule (시가총액, in 억-won units). -/
def market_cap_rule (stock : StockData) : List Signal :=
  if 0 < stock.market_cap then
    let cap_billion := stock.market_cap / 100000000
    if 100000 < cap_billion then [⟨"시가총액", "대형주", "bullish"⟩]
    else if 10000 < cap_billion then [⟨"시가총액", "중대형주", "neutral"⟩]
    else if 3000 < cap_billion then [⟨"시가총액", "중형주", "neutral"⟩]
    else [⟨"시가총액", "소형주", "bearish"⟩]
  else []

/-- Source `StockAnalyzer._analyze_fundamental`: the six rules in source order. -/
def analyze_fundamental (stock : StockData) : List Signal :=
  per_rule stock ++ pbr_rule stock ++ roe_rule stock ++ week52_rule stock ++
  foreign_rule stock ++ market_cap_rule stock

/-- The sentiment→number dictionary of `StockAnalyzer._calculate_score`;
`none` models the `KeyError` a lookup of any other key would raise. -/
def score_map : String → Option ℚ
  | "bullish" => some 100
  | "neutral" => some 50
  | "bearish" => some 0
  | _ => none

/-- Source `StockAnalyzer._calculate_score`: 50 on the empty list, else the mean of
the mapped sentiments; `none` when some sentiment is not in the dictionary. -/
def calculate_score (signals : List Signal) : Option ℚ :=
  if signals = [] then some 50
  else do
    let vals ← signals.mapM fun s => score_map s.sentiment
    pure (vals.sum / (vals.length : ℚ))

/-- Source `StockAnalyzer._get_recommendation` (recommendation text, emoji). -/
def get_recommendation (score : ℚ) : String × String :=
  if 75 ≤ score then ("적극 매수", "🟢🟢🟢")
  else if 60 ≤ score then ("매수", "🟢🟢")
  else if 45 ≤ score then ("중립", "🟡")
  else if 30 ≤ score then ("매도", "🔴🔴")
  else ("적극 매도", "🔴🔴🔴")

/-- The weight configuration (`self.weights` dictionary). -/
structure Weights where
  technical : ℚ
  fundamental : ℚ
deriving DecidableEq, Repr

/-- Source `StockAnalyzer.set_weights`: divide both raw weights by their sum. -/
def set_weights (technical fundamental : ℚ) : Weights :=
  let total := technical + fundamental
  ⟨technical / total, fundamental / total⟩

/-- The analysis-result record built by `StockAnalyzer.analyze` (the fields of
its returned dictionary that the engine computes; the crawl date is wall-clock
and external). -/
structure AnalysisResult where
  code : String
  name : String
  current_price : ℚ
  prev_close : ℚ
  change_pct : ℚ
  technical_score : ℚ
  fundamental_score : ℚ
  total_score : ℚ
  recommendation : String
  weights : Weights
  technical_signals : List Signal
  fundamental_signals : List Signal
deriving DecidableEq, Repr

/-- The engine core of `StockAnalyzer.analyze`, from the crawled `StockData`
and price/volume history onward (the crawler lookup preceding it is an
external collaborator).  `none` models the `return None` taken when both the
name and the current price are missing, and the `KeyError` path of the score
lookup. -/
def analyze_core (w : Weights) (stdFn : List ℚ → ℚ) (stock : StockData)
    (prices : List ℚ) (volumes : List ℤ) : Option AnalysisResult :=
  if stock.name = "" ∧ stock.current_price = 0 then none
  else
    let tech := calculate_all stdFn prices volumes stock.current_price
    let tech_signals := analyze_technical stock tech
    let fund_signals := analyze_fundamental stock
    match calculate_score tech_signals, calculate_score fund_signals with
    | some tech_score, some fund_score =>
      let total_score := tech_score * w.technical + fund_score * w.fundamental
      some
        { code := stock.code
        , name := stock.name
        , current_price := stock.current_price
        , prev_close := stock.prev_close
        , change_pct :=
            if stock.prev_close ≠ 0 then
              (stock.current_price / stock.prev_close - 1) * 100
            else 0
        , technical_score := tech_score
        , fundamental_score := fund_score
        , total_score := total_score
        , recommendation := (get_recommendation total_score).1
        , weights := w
        , technical_signals := tech_signals
        , fundamental_signals := fund_signals }
    | _, _ => none

/-- The sentiments admitted by the `Signal` data model. -/
def validSentiment (s : String) : Prop :=
  s = "bullish" ∨ s = "neutral" ∨ s = "bearish"

instance (s : String) : Decidable (validSentiment s) := by
  unfold validSentiment; infer_instance

/-- The number the score dictionary associates to a valid sentiment. -/
def sentimentValue (s : String) : ℚ :=
  if s = "bullish" then 100 else if s = "neutral" then 50 else 0

/-- Modelled from the claim's words (used only to compare against the source's
`_ema`): an exponential moving average seeded with the simple mean of the
first `period` samples and then recursively smoothed forward over the
remaining samples with multiplier `2 / (period + 1)`. -/
def ema_meanSeed (prices : List ℚ) (period : ℕ) : ℚ :=
  (prices.drop period).foldl (emaStep (2 / ((period : ℚ) + 1)))
    (mean (prices.take period))

/-! Concrete inputs used by witnesses and counterexamples. -/

/-- A snapshot with a name but no other data. -/
def c1Stock : StockData := { name := "테스트" }

/-- The analysis result the engine produces from `c1Stock` with no price
history and 40/60 weights. -/
def c1Result : AnalysisResult :=
  { code := "", name := "테스트", current_price := 0, prev_close := 0
  , change_pct := 0, technical_score := 50, fundamental_score := 50
  , total_score := 50, recommendation := "중립", weights := ⟨2/5, 3/5⟩
  , technical_signals := [], fundamental_signals := [] }

/-- An all-sentinel snapshot (every field at its zero default). -/
def zeroStock : StockData := {}

/-- A 26-sample price series: one spike followed by zeros. -/
def c7Prices : List ℚ :=
  [100, 0, 0, 0, 0, 0, 0, 0, 0, 0, 0, 0, 0, 0, 0, 0, 0, 0, 0, 0, 0, 0, 0, 0, 0, 0]

/-- A 5-sample constant price series. -/
def c8Prices : List ℚ := [10, 10, 10, 10, 10]

/-- A 20-sample constant price series. -/
def c8Long : List ℚ :=
  [1, 1, 1, 1, 1, 1, 1, 1, 1, 1, 1, 1, 1, 1, 1, 1, 1, 1, 1, 1]

/-- A single neutral signal. -/
def c3Sig : Signal := ⟨"RSI", "중립", "neutral"⟩

/-- A strictly rising 15-sample price series. -/
def c6Prices : List ℚ :=
  [0, 1, 2, 3, 4, 5, 6, 7, 8, 9, 10, 11, 12, 13, 14]

/-- A snapshot whose only datum is a nonzero current price. -/
def c9Stock : StockData := { current_price := 1 }

/-- The all-defaults technical bundle. -/
def defaultTech : TechnicalData := {}

/-! Helper lemmas about the scorer. -/

theorem score_map_valid {s : String} (h : validSentiment s) :
    score_map s = some (sentimentValue s) := by
  rcases h with h | h | h <;> subst h <;> rfl

theorem sentimentValue_nonneg (s : String) : 0 ≤ sentimentValue s := by
  unfold sentimentValue
  split
  · norm_num
  · split <;> norm_num

theorem sentimentValue_le (s : String) : sentimentValue s ≤ 100 := by
  unfold sentimentValue
  split
  · norm_num
  · split <;> norm_num

theorem mapM_score_eq :
    ∀ l : List Signal, (∀ s ∈ l, validSentiment s.sentiment) →
      l.mapM (fun s => score_map s.sentiment) =
        some (l.map fun s => sentimentValue s.sentiment)
  | [], _ => rfl
  | a :: t, h => by
      have ha := score_map_valid (h a (List.mem_cons_self a t))
      have ih := mapM_score_eq t fun s hs => h s (List.mem_cons_of_mem a hs)
      rw [List.mapM_cons, ha, ih]
      rfl

theorem calculate_score_nil : calculate_score [] = some 50 := rfl

theorem calculate_score_eq (l : List Signal) (hne : l ≠ [])
    (h : ∀ s ∈ l, validSentiment s.sentiment) :
    calculate_score l =
      some ((l.map fun s => sentimentValue s.sentiment).sum / (l.length : ℚ)) := by
  unfold calculate_score
  rw [if_neg hne, mapM_score_eq l h]
  simp

theorem sum_le_hundred_mul (l : List ℚ) (h : ∀ x ∈ l, x ≤ 100) :
    l.sum ≤ 100 * l.length := by
  induction l with
  | nil => simp
  | cons a t ih =>
      have ha := h a (List.mem_cons_self a t)
      have ht := ih fun x hx => h x (List.mem_cons_of_mem a hx)
      simp only [List.sum_cons, List.length_cons]
      push_cast
      linarith

theorem score_bounds (l : List Signal) (h : ∀ s ∈ l, validSentiment s.sentiment) :
    ∃ q, calculate_score l = some q ∧ 0 ≤ q ∧ q ≤ 100 := by
  by_cases hnil : l = []
  · exact ⟨50, by rw [hnil]; exact calculate_score_nil, by norm_num, by norm_num⟩
  · refine ⟨_, calculate_score_eq l hnil h, ?_, ?_⟩
    · refine div_nonneg (List.sum_nonneg ?_) (Nat.cast_nonneg _)
      intro x hx
      obtain ⟨s, _, rfl⟩ := List.mem_map.mp hx
      exact sentimentValue_nonneg _
    · have hlen : 0 < (l.length : ℚ) := by
        exact_mod_cast List.length_pos.mpr hnil
      rw [div_le_iff₀ hlen]
      have := sum_le_hundred_mul (l.map fun s => sentimentValue s.sentiment)
        (by intro x hx
            obtain ⟨s, _, rfl⟩ := List.mem_map.mp hx
            exact sentimentValue_le _)
      simpa using this

/-! Every rule emits only valid sentiments. -/

theorem ma_alignment_rule_valid (tech : TechnicalData) :
    ∀ s ∈ ma_alignment_rule tech, validSentiment s.sentiment := by
  intro s hs
  simp only [ma_alignment_rule] at hs
  (repeat' split at hs) <;> simp_all [validSentiment]

theorem price_vs_ma20_rule_valid (price : ℚ) (tech : TechnicalData) :
    ∀ s ∈ price_vs_ma20_rule price tech, validSentiment s.sentiment := by
  intro s hs
  simp only [price_vs_ma20_rule] at hs
  (repeat' split at hs) <;> simp_all [validSentiment]

theorem rsi_rule_valid (tech : TechnicalData) :
    ∀ s ∈ rsi_rule tech, validSentiment s.sentiment := by
  intro s hs
  simp only [rsi_rule] at hs
  (repeat' split at hs) <;> simp_all [validSentiment]

theorem macd_rule_valid (tech : TechnicalData) :
    ∀ s ∈ macd_rule tech, validSentiment s.sentiment := by
  intro s hs
  simp only [macd_rule] at hs
  (repeat' split at hs) <;> simp_all [validSentiment]

theorem bollinger_rule_valid (price : ℚ) (tech : TechnicalData) :
    ∀ s ∈ bollinger_rule price tech, validSentiment s.sentiment := by
  intro s hs
  simp only [bollinger_rule] at hs
  (repeat' split at hs) <;> simp_all [validSentiment]

theorem stochastic_rule_valid (tech : TechnicalData) :
    ∀ s ∈ stochastic_rule tech, validSentiment s.sentiment := by
  intro s hs
  simp only [stochastic_rule] at hs
  (repeat' split at hs) <;> simp_all [validSentiment]

theorem volume_rule_valid (volume : ℤ) (tech : TechnicalData) :
    ∀ s ∈ volume_rule volume tech, validSentiment s.sentiment := by
  intro s hs
  simp only [volume_rule] at hs
  (repeat' split at hs) <;> simp_all [validSentiment]

theorem analyze_technical_valid (stock : StockData) (tech : TechnicalData) :
    ∀ s ∈ analyze_technical stock tech, validSentiment s.sentiment := by
  intro s hs
  unfold analyze_technical at hs
  split at hs
  · simp at hs
  · simp only [List.mem_append] at hs
    rcases hs with ((((((h | h) | h) | h) | h) | h) | h)
    exacts [ma_alignment_rule_valid tech s h,
      price_vs_ma20_rule_valid stock.current_price tech s h,
      rsi_rule_valid tech s h, macd_rule_valid tech s h,
      bollinger_rule_valid stock.current_price tech s h,
      stochastic_rule_valid tech s h, volume_rule_valid stock.volume tech s h]

theorem per_rule_valid (stock : StockData) :
    ∀ s ∈ per_rule stock, validSentiment s.sentiment := by
  intro s hs
  simp only [per_rule] at hs
  (repeat' split at hs) <;> simp_all [validSentiment]

theorem pbr_rule_valid (stock : StockData) :
    ∀ s ∈ pbr_rule stock, validSentiment s.sentiment := by
  intro s hs
  simp only [pbr_rule] at hs
  (repeat' split at hs) <;> simp_all [validSentiment]

theorem roe_rule_valid (stock : StockData) :
    ∀ s ∈ roe_rule stock, validSentiment s.sentiment := by
  intro s hs
  simp only [roe_rule] at hs
  (repeat' split at hs) <;> simp_all [validSentiment]

theorem week52_rule_valid (stock : StockData) :
    ∀ s ∈ week52_rule stock, validSentiment s.sentiment := by
  intro s hs
  simp only [week52_rule] at hs
  (repeat' split at hs) <;> simp_all [validSentiment]

theorem foreign_rule_valid (stock : StockData) :
    ∀ s ∈ foreign_rule stock, validSentiment s.sentiment := by
  intro s hs
  simp only [foreign_rule] at hs
  (repeat' split at hs) <;> simp_all [validSentiment]

theorem market_cap_rule_valid (stock : StockData) :
    ∀ s ∈ market_cap_rule stock, validSentiment s.sentiment := by
  intro s hs
  simp only [market_cap_rule] at hs
  (repeat' split at hs) <;> simp_all [validSentiment]

theorem analyze_fundamental_valid (stock : StockData) :
    ∀ s ∈ analyze_fundamental stock, validSentiment s.sentiment := by
  intro s hs
  unfold analyze_fundamental at hs
  simp only [List.mem_append] at hs
  rcases hs with (((((h | h) | h) | h) | h) | h)
  exacts [per_rule_valid stock s h, pbr_rule_valid stock s h,
    roe_rule_valid stock s h, week52_rule_valid stock s h,
    foreign_rule_valid stock s h, market_cap_rule_valid stock s h]

/-! Lemmas about means of nonnegative lists. -/

theorem mean_nonneg (l : List ℚ) (h : ∀ x ∈ l, 0 ≤ x) : 0 ≤ mean l :=
  div_nonneg (List.sum_nonneg h) (Nat.cast_nonneg _)

theorem avgGain_nonneg (prices : List ℚ) (period : ℕ) :
    0 ≤ avgGain prices period := by
  refine mean_nonneg _ ?_
  intro x hx
  unfold takeLast at hx
  obtain ⟨d, -, rfl⟩ := List.mem_map.mp (List.mem_of_mem_drop hx)
  split <;> [linarith; rfl]

theorem avgLoss_nonneg (prices : List ℚ) (period : ℕ) :
    0 ≤ avgLoss prices period := by
  refine mean_nonneg _ ?_
  intro x hx
  unfold takeLast at hx
  obtain ⟨d, -, rfl⟩ := List.mem_map.mp (List.mem_of_mem_drop hx)
  split <;> [linarith; rfl]

theorem map_sentiment_sum_const (c : ℚ) :
    ∀ l : List Signal, (∀ s ∈ l, sentimentValue s.sentiment = c) →
      (l.map fun s => sentimentValue s.sentiment).sum = c * l.length
  | [], _ => by simp
  | a :: t, h => by
      have ha := h a (List.mem_cons_self a t)
      have ih := map_sentiment_sum_const c t fun s hs => h s (List.mem_cons_of_mem a hs)
      simp only [List.map_cons, List.sum_cons, List.length_cons, ih, ha]
      push_cast
      ring

/-! Claim theorems. -/

/-- C2: the recommendation tier is a pure function of the total score with
lower-bound-inclusive thresholds: score ≥ 75 yields "적극 매수" (strong buy),
60 ≤ score < 75 yields "매수" (buy), 45 ≤ score < 60 yields "중립"
(hold/neutral), 30 ≤ score < 45 yields "매도" (sell), and score < 30 yields
"적극 매도" (strong sell); a score exactly at a threshold belongs to the
higher tier. -/
theorem recommendation_tiers (s : ℚ) :
    (75 ≤ s → (get_recommendation s).1 = "적극 매수") ∧
    (60 ≤ s → s < 75 → (get_recommendation s).1 = "매수") ∧
    (45 ≤ s → s < 60 → (get_recommendation s).1 = "중립") ∧
    (30 ≤ s → s < 45 → (get_recommendation s).1 = "매도") ∧
    (s < 30 → (get_recommendation s).1 = "적극 매도") := by
  unfold get_recommendation
  refine ⟨fun h => ?_, fun h1 h2 => ?_, fun h1 h2 => ?_, fun h1 h2 => ?_,
    fun h => ?_⟩
  · rw [if_pos h]
  · rw [if_neg (not_le.mpr (by linarith)), if_pos h1]
  · rw [if_neg (not_le.mpr (by linarith)), if_neg (not_le.mpr (by linarith)),
      if_pos h1]
  · rw [if_neg (not_le.mpr (by linarith)), if_neg (not_le.mpr (by linarith)),
      if_neg (not_le.mpr (by linarith)), if_pos h1]
  · rw [if_neg (not_le.mpr (by linarith)), if_neg (not_le.mpr (by linarith)),
      if_neg (not_le.mpr (by linarith)), if_neg (not_le.mpr (by linarith))]

/-- Witness for C2: exact threshold scores land in the higher tier. -/
theorem recommendation_tiers_witness :
    (get_recommendation 75).1 = "적극 매수" ∧ (get_recommendation 45).1 = "중립" :=
  ⟨(recommendation_tiers 75).1 (by norm_num),
   (recommendation_tiers 45).2.2.1 (by norm_num) (by norm_num)⟩

/-- C3: on a signal list whose sentiments are all valid, the scorer returns
the arithmetic mean of the mapped values (bullish 100, neutral 50,
bearish 0), exactly 50 on the empty list, exactly 100 on a nonempty
all-bullish list, exactly 0 on a nonempty all-bearish list, and the result
always lies in [0, 100]. -/
theorem scorer_mean (signals : List Signal)
    (h : ∀ s ∈ signals, validSentiment s.sentiment) :
    ∃ q, calculate_score signals = some q ∧ 0 ≤ q ∧ q ≤ 100 ∧
      (signals = [] → q = 50) ∧
      (signals ≠ [] →
        q = (signals.map fun s => sentimentValue s.sentiment).sum /
          (signals.length : ℚ)) ∧
      (signals ≠ [] → (∀ s ∈ signals, s.sentiment = "bullish") → q = 100) ∧
      (signals ≠ [] → (∀ s ∈ signals, s.sentiment = "bearish") → q = 0) := by
  by_cases hnil : signals = []
  · subst hnil
    exact ⟨50, calculate_score_nil, by norm_num, by norm_num, fun _ => rfl,
      fun hc => absurd rfl hc, fun hc _ => absurd rfl hc, fun hc _ => absurd rfl hc⟩
  · obtain ⟨q, hq, h0, h100⟩ := score_bounds signals h
    have hq' := calculate_score_eq signals hnil h
    rw [hq] at hq'
    have hqe := Option.some.inj hq'
    have hlen : (signals.length : ℚ) ≠ 0 := by
      have hn : signals.length ≠ 0 := (List.length_pos.mpr hnil).ne'
      exact_mod_cast hn
    refine ⟨q, hq, h0, h100, fun hc => absurd hc hnil, fun _ => hqe, ?_, ?_⟩
    · intro _ hb
      have hsum := map_sentiment_sum_const 100 signals fun s hs => by
        simp [sentimentValue, hb s hs]
      rw [hqe, hsum, mul_div_assoc, div_self hlen, mul_one]
    · intro _ hb
      have hsum := map_sentiment_sum_const 0 signals fun s hs => by
        simp [sentimentValue, hb s hs]
      rw [hqe, hsum, zero_mul, zero_div]

/-- Witness for C3: a one-element neutral list scores 50 = its mean. -/
theorem scorer_mean_witness :
    ∃ q, calculate_score [c3Sig] = some q ∧ 0 ≤ q ∧ q ≤ 100 ∧
      ([c3Sig] = [] → q = 50) ∧
      (([c3Sig] : List Signal) ≠ [] →
        q = ([c3Sig].map fun s => sentimentValue s.sentiment).sum /
          (([c3Sig] : List Signal).length : ℚ)) ∧
      (([c3Sig] : List Signal) ≠ [] →
        (∀ s ∈ [c3Sig], s.sentiment = "bullish") → q = 100) ∧
      (([c3Sig] : List Signal) ≠ [] →
        (∀ s ∈ [c3Sig], s.sentiment = "bearish") → q = 0) :=
  scorer_mean [c3Sig] (by decide)

/-- C5: on a price series with fewer than 20 samples the Indicator Calculator
returns, without failing, the all-defaults bundle: moving averages 0 (the
"or 0" arm of the spec's "currentPrice or 0"), RSI 50, stochastic %K 50,
Bollinger bands 0, MACD 0, and volume MA20 0, carrying the input series. -/
theorem short_series_defaults (stdFn : List ℚ → ℚ) (prices : List ℚ)
    (volumes : List ℤ) (current_price : ℚ) (h : prices.length < 20) :
    (calculate_all stdFn prices volumes current_price).ma5 = 0 ∧
    (calculate_all stdFn prices volumes current_price).ma20 = 0 ∧
    (calculate_all stdFn prices volumes current_price).ma60 = 0 ∧
    (calculate_all stdFn prices volumes current_price).ma120 = 0 ∧
    (calculate_all stdFn prices volumes current_price).rsi_14 = 50 ∧
    (calculate_all stdFn prices volumes current_price).macd = 0 ∧
    (calculate_all stdFn prices volumes current_price).macd_signal = 0 ∧
    (calculate_all stdFn prices volumes current_price).stochastic_k = 50 ∧
    (calculate_all stdFn prices volumes current_price).bb_upper = 0 ∧
    (calculate_all stdFn prices volumes current_price).bb_middle = 0 ∧
    (calculate_all stdFn prices volumes current_price).bb_lower = 0 ∧
    (calculate_all stdFn prices volumes current_price).volume_ma20 = 0 ∧
    (calculate_all stdFn prices volumes current_price).prices = prices ∧
    (calculate_all stdFn prices volumes current_price).volumes = volumes := by
  unfold calculate_all
  rw [if_pos h]
  exact ⟨rfl, rfl, rfl, rfl, rfl, rfl, rfl, rfl, rfl, rfl, rfl, rfl, rfl, rfl⟩

/-- Witness for C5 at a one-sample series. -/
theorem short_series_defaults_witness :
    (calculate_all (fun _ => 0) [1] [] 7).ma5 = 0 ∧
    (calculate_all (fun _ => 0) [1] [] 7).ma20 = 0 ∧
    (calculate_all (fun _ => 0) [1] [] 7).ma60 = 0 ∧
    (calculate_all (fun _ => 0) [1] [] 7).ma120 = 0 ∧
    (calculate_all (fun _ => 0) [1] [] 7).rsi_14 = 50 ∧
    (calculate_all (fun _ => 0) [1] [] 7).macd = 0 ∧
    (calculate_all (fun _ => 0) [1] [] 7).macd_signal = 0 ∧
    (calculate_all (fun _ => 0) [1] [] 7).stochastic_k = 50 ∧
    (calculate_all (fun _ => 0) [1] [] 7).bb_upper = 0 ∧
    (calculate_all (fun _ => 0) [1] [] 7).bb_middle = 0 ∧
    (calculate_all (fun _ => 0) [1] [] 7).bb_lower = 0 ∧
    (calculate_all (fun _ => 0) [1] [] 7).volume_ma20 = 0 ∧
    (calculate_all (fun _ => 0) [1] [] 7).prices = [1] ∧
    (calculate_all (fun _ => 0) [1] [] 7).volumes = [] :=
  short_series_defaults (fun _ => 0) [1] [] 7 (by norm_num)

/-- C10: every signal either generator produces carries one of the three
sentiments "bullish", "neutral", "bearish", so the scorer's dictionary
lookup is total on every generated list and both component scores are
well-defined values in [0, 100]. -/
theorem generated_signals_valid (stock : StockData) (tech : TechnicalData) :
    (∀ s ∈ analyze_technical stock tech, validSentiment s.sentiment) ∧
    (∀ s ∈ analyze_fundamental stock, validSentiment s.sentiment) ∧
    (∃ q, calculate_score (analyze_technical stock tech) = some q ∧
      0 ≤ q ∧ q ≤ 100) ∧
    (∃ q, calculate_score (analyze_fundamental stock) = some q ∧
      0 ≤ q ∧ q ≤ 100) :=
  ⟨analyze_technical_valid stock tech, analyze_fundamental_valid stock,
   score_bounds _ (analyze_technical_valid stock tech),
   score_bounds _ (analyze_fundamental_valid stock)⟩

/-- Witness for C10 at the all-defaults snapshot and bundle. -/
theorem generated_signals_valid_witness :
    (∀ s ∈ analyze_technical zeroStock defaultTech, validSentiment s.sentiment) ∧
    (∀ s ∈ analyze_fundamental zeroStock, validSentiment s.sentiment) ∧
    (∃ q, calculate_score (analyze_technical zeroStock defaultTech) = some q ∧
      0 ≤ q ∧ q ≤ 100) ∧
    (∃ q, calculate_score (analyze_fundamental zeroStock) = some q ∧
      0 ≤ q ∧ q ≤ 100) :=
  generated_signals_valid zeroStock defaultTech

/-- C1: for raw weights with positive sum, `set_weights` stores the
normalized pair (wt/(wt+wf), wf/(wt+wf)), which sums to 1, and every
result the engine produces under those weights has
totalScore = technicalScore × wTech + fundamentalScore × wFund exactly. -/
theorem weights_normalized_total (wt wf : ℚ) (h : 0 < wt + wf)
    (stdFn : List ℚ → ℚ) (stock : StockData) (prices : List ℚ)
    (volumes : List ℤ) (r : AnalysisResult)
    (hr : analyze_core (set_weights wt wf) stdFn stock prices volumes = some r) :
    (set_weights wt wf).technical = wt / (wt + wf) ∧
    (set_weights wt wf).fundamental = wf / (wt + wf) ∧
    (set_weights wt wf).technical + (set_weights wt wf).fundamental = 1 ∧
    r.total_score = r.technical_score * (wt / (wt + wf)) +
      r.fundamental_score * (wf / (wt + wf)) := by
  refine ⟨rfl, rfl, ?_, ?_⟩
  · show wt / (wt + wf) + wf / (wt + wf) = 1
    rw [div_add_div_same, div_self (ne_of_gt h)]
  · simp only [analyze_core] at hr
    split at hr
    · exact Option.noConfusion hr
    · split at hr <;> (try split at hr) <;>
        first
          | exact Option.noConfusion hr
          | (simp only [Option.some.injEq] at hr; subst hr; rfl)

/-- Witness for C1: raw proportions 40/60 on a name-only snapshot. -/
theorem weights_normalized_total_witness :
    (set_weights 40 60).technical = 40 / (40 + 60) ∧
    (set_weights 40 60).fundamental = 60 / (40 + 60) ∧
    (set_weights 40 60).technical + (set_weights 40 60).fundamental = 1 ∧
    c1Result.total_score = c1Result.technical_score * (40 / (40 + 60)) +
      c1Result.fundamental_score * (60 / (40 + 60)) :=
  weights_normalized_total 40 60 (by norm_num) (fun _ => 0) c1Stock [] []
    c1Result (by
      norm_num [analyze_core, set_weights, calculate_all, analyze_technical,
        analyze_fundamental, per_rule, pbr_rule, roe_rule, week52_rule,
        foreign_rule, market_cap_rule, calculate_score, get_recommendation,
        c1Stock, c1Result, AnalysisResult.mk.injEq, Weights.mk.injEq]
      intro h
      exact absurd h (by decide))

/-- C4: the engine returns no result exactly when the snapshot is
structurally invalid (name empty and current price zero); on every other
snapshot it produces a result, and a snapshot whose fundamental fields are
all at the zero sentinel yields an empty fundamental signal list, scored 50. -/
theorem analyze_failure_iff (w : Weights) (stdFn : List ℚ → ℚ)
    (stock : StockData) (prices : List ℚ) (volumes : List ℤ) :
    (analyze_core w stdFn stock prices volumes = none ↔
      stock.name = "" ∧ stock.current_price = 0) ∧
    (stock.per = 0 ∧ stock.pbr = 0 ∧ stock.roe = 0 ∧ stock.high_52w = 0 ∧
        stock.low_52w = 0 ∧ stock.foreign_ratio = 0 ∧ stock.market_cap = 0 →
      analyze_fundamental stock = [] ∧
      calculate_score (analyze_fundamental stock) = some 50) := by
  constructor
  · constructor
    · intro hn
      by_contra hinv
      obtain ⟨qt, hqt, -, -⟩ := score_bounds _
        (analyze_technical_valid stock
          (calculate_all stdFn prices volumes stock.current_price))
      obtain ⟨qf, hqf, -, -⟩ := score_bounds _ (analyze_fundamental_valid stock)
      simp only [analyze_core, if_neg hinv] at hn
      rw [hqt, hqf] at hn
      exact Option.noConfusion hn
    · intro hinv
      unfold analyze_core
      rw [if_pos hinv]
  · rintro ⟨hper, hpbr, hroe, hh, hl, hf, hm⟩
    have hfund : analyze_fundamental stock = [] := by
      simp only [analyze_fundamental, per_rule, pbr_rule, roe_rule, week52_rule,
        foreign_rule, market_cap_rule, hper, hpbr, hroe, hh, hl, hf, hm]
      norm_num
    exact ⟨hfund, by rw [hfund]; exact calculate_score_nil⟩

/-- Witness for C4: the all-sentinel snapshot yields no fundamental signals
and a neutral fundamental score of 50. -/
theorem analyze_failure_iff_witness :
    analyze_fundamental zeroStock = [] ∧
    calculate_score (analyze_fundamental zeroStock) = some 50 :=
  (analyze_failure_iff ⟨2/5, 3/5⟩ (fun _ => 0) zeroStock [] []).2 (by decide)

/-- C6: RSI(14) is 50 below 15 samples; with at least 15 samples it is
exactly 100 when the trailing average loss is zero and otherwise
100 − 100/(1 + avgGain/avgLoss); and the result always lies in [0, 100]. -/
theorem rsi_formula_bounds (prices : List ℚ) :
    0 ≤ calculate_rsi prices 14 ∧ calculate_rsi prices 14 ≤ 100 ∧
    (prices.length < 15 → calculate_rsi prices 14 = 50) ∧
    (15 ≤ prices.length →
      (avgLoss prices 14 = 0 → calculate_rsi prices 14 = 100) ∧
      (avgLoss prices 14 ≠ 0 →
        calculate_rsi prices 14 =
          100 - 100 / (1 + avgGain prices 14 / avgLoss prices 14))) := by
  have hg := avgGain_nonneg prices 14
  have hl := avgLoss_nonneg prices 14
  by_cases hlen : prices.length < 14 + 1
  · unfold calculate_rsi
    rw [if_pos hlen]
    exact ⟨by norm_num, by norm_num, fun _ => rfl,
      fun h15 => absurd hlen (by omega)⟩
  · by_cases hz : avgLoss prices 14 = 0
    · unfold calculate_rsi
      rw [if_neg hlen, if_pos hz]
      exact ⟨by norm_num, by norm_num, fun hc => absurd hc hlen,
        fun _ => ⟨fun _ => rfl, fun hne => absurd hz hne⟩⟩
    · have hlpos : 0 < avgLoss prices 14 := lt_of_le_of_ne hl (Ne.symm hz)
      have hrs : 0 ≤ avgGain prices 14 / avgLoss prices 14 := div_nonneg hg hl
      have h1 : 100 / (1 + avgGain prices 14 / avgLoss prices 14) ≤ 100 :=
        div_le_self (by norm_num) (by linarith)
      have h2 : 0 ≤ 100 / (1 + avgGain prices 14 / avgLoss prices 14) :=
        div_nonneg (by norm_num) (by linarith)
      unfold calculate_rsi
      rw [if_neg hlen, if_neg hz]
      exact ⟨by linarith, by linarith, fun hc => absurd hc hlen,
        fun _ => ⟨fun hc => absurd hc hz, fun _ => rfl⟩⟩

/-- Witness for C6: a strictly rising 15-sample series has zero average loss
and RSI exactly 100. -/
theorem rsi_formula_bounds_witness : calculate_rsi c6Prices 14 = 100 :=
  ((rsi_formula_bounds c6Prices).2.2.2 (by norm_num [c6Prices])).1
    (by norm_num [avgLoss, c6Prices, diffs, takeLast, mean])

/-- C7 counterexample: at a concrete 26-sample series the source's MACD line
differs from the claim's EMA(12) − EMA(26) built from mean-seeded EMAs,
because the source seeds each EMA with the single close N samples from the
end, not with the simple mean of the first N samples. -/
theorem macd_seed_counterexample :
    (calculate_macd c7Prices).1 ≠
      ema_meanSeed c7Prices 12 - ema_meanSeed c7Prices 26 := by
  norm_num [calculate_macd, ema, ema_meanSeed, emaStep, takeLast, mean,
    c7Prices, List.headI]

/-- C7 amended: with at least 26 samples the MACD line equals
EMA(12) − EMA(26) where each EMA uses multiplier 2/(N+1), is seeded with the
single close N samples from the end (the first element of the trailing
window), and is smoothed forward over the remaining N−1 closes; the signal
line is exactly 0.8 × the MACD line; with fewer than 26 samples both
outputs are 0. -/
theorem macd_first_sample_seed (prices : List ℚ) :
    (prices.length < 26 → calculate_macd prices = (0, 0)) ∧
    (26 ≤ prices.length →
      (calculate_macd prices).1 = ema prices 12 - ema prices 26 ∧
      (calculate_macd prices).2 = (calculate_macd prices).1 * (8 / 10) ∧
      ∀ period : ℕ, period ≤ prices.length →
        ema prices period =
          (takeLast period prices).tail.foldl
            (emaStep (2 / ((period : ℚ) + 1)))
            (takeLast period prices).headI) := by
  refine ⟨fun h => ?_, fun h => ⟨?_, ?_, fun period hp => ?_⟩⟩
  · unfold calculate_macd
    rw [if_pos h]
  · unfold calculate_macd
    rw [if_neg (by omega)]
  · unfold calculate_macd
    rw [if_neg (by omega)]
  · unfold ema
    rw [if_neg (by omega)]

/-- Witness for the amended C7 at concrete series. -/
theorem macd_first_sample_seed_witness :
    calculate_macd [1, 2] = (0, 0) ∧
    (calculate_macd c7Prices).1 = ema c7Prices 12 - ema c7Prices 26 :=
  ⟨(macd_first_sample_seed [1, 2]).1 (by norm_num),
   ((macd_first_sample_seed c7Prices).2 (by norm_num [c7Prices])).1⟩

/-- C8 counterexample: on a 5-sample series (fewer than 20), the calculator
returns ma5 = 0 — neither the mean of the trailing 5 closes (here 10) nor
the currentPrice fallback (here 7) that the claim prescribes. -/
theorem ma_fallback_counterexample :
    (calculate_all (fun _ => 0) c8Prices [] 7).ma5 ≠
      mean (takeLast 5 c8Prices) ∧
    (calculate_all (fun _ => 0) c8Prices [] 7).ma5 ≠ 7 := by
  constructor <;> norm_num [calculate_all, c8Prices, mean, takeLast]

/-- C8 amended: when at least 20 samples exist, MA5 and MA20 equal the means
of the trailing 5 and 20 closes, and MA60/MA120 equal the trailing means
when at least 60/120 samples exist and currentPrice otherwise; when fewer
than 20 samples exist all four moving averages are 0 (the calculator
returns its defaults wholesale, skipping the currentPrice fallback). -/
theorem moving_averages_amended (stdFn : List ℚ → ℚ) (prices : List ℚ)
    (volumes : List ℤ) (current_price : ℚ) :
    (prices.length < 20 →
      (calculate_all stdFn prices volumes current_price).ma5 = 0 ∧
      (calculate_all stdFn prices volumes current_price).ma20 = 0 ∧
      (calculate_all stdFn prices volumes current_price).ma60 = 0 ∧
      (calculate_all stdFn prices volumes current_price).ma120 = 0) ∧
    (20 ≤ prices.length →
      (calculate_all stdFn prices volumes current_price).ma5 =
        mean (takeLast 5 prices) ∧
      (calculate_all stdFn prices volumes current_price).ma20 =
        mean (takeLast 20 prices) ∧
      (calculate_all stdFn prices volumes current_price).ma60 =
        (if 60 ≤ prices.length then mean (takeLast 60 prices)
         else current_price) ∧
      (calculate_all stdFn prices volumes current_price).ma120 =
        (if 120 ≤ prices.length then mean (takeLast 120 prices)
         else current_price)) := by
  constructor
  · intro h
    unfold calculate_all
    rw [if_pos h]
    exact ⟨rfl, rfl, rfl, rfl⟩
  · intro h
    unfold calculate_all
    rw [if_neg (by omega : ¬ prices.length < 20),
      if_pos (by omega : 5 ≤ prices.length), if_pos h]
    exact ⟨rfl, rfl, rfl, rfl⟩

/-- Witness for the amended C8: 20 constant samples give MA5 the trailing
mean and MA60 the currentPrice fallback. -/
theorem moving_averages_amended_witness :
    (calculate_all (fun _ => 0) c8Long [] 7).ma5 = mean (takeLast 5 c8Long) ∧
    (calculate_all (fun _ => 0) c8Long [] 7).ma60 = 7 := by
  have h := (moving_averages_amended (fun _ => 0) c8Long [] 7).2
    (by norm_num [c8Long])
  refine ⟨h.1, ?_⟩
  rw [h.2.2.1, if_neg (by norm_num [c8Long])]

/-- C9 counterexample: on a snapshot whose current price is 0 (with any
bundle, here the default one) the technical signal generator returns the
empty list, so no MACD signal is emitted — refuting "always emitted, with
no skip condition" over all snapshots. -/
theorem macd_emitted_counterexample :
    analyze_technical zeroStock defaultTech = [] ∧
    ((analyze_technical zeroStock defaultTech).all
      fun s => s.indicator != "MACD") = true := by
  constructor <;> simp [analyze_technical, zeroStock]

/-- C9 amended: for every snapshot with nonzero current price and every
bundle, the technical signal list contains a MACD signal — bullish when the
MACD line is greater than the signal line, bearish otherwise; when the
current price is zero the whole technical signal list is empty. -/
theorem macd_emitted_amended (stock : StockData) (tech : TechnicalData) :
    (stock.current_price ≠ 0 →
      (tech.macd_signal < tech.macd →
        Signal.mk "MACD" "매수 신호" "bullish" ∈ analyze_technical stock tech) ∧
      (¬ tech.macd_signal < tech.macd →
        Signal.mk "MACD" "매도 신호" "bearish" ∈ analyze_technical stock tech)) ∧
    (stock.current_price = 0 → analyze_technical stock tech = []) := by
  constructor
  · intro h
    constructor
    · intro hlt
      have hm : Signal.mk "MACD" "매수 신호" "bullish" ∈ macd_rule tech := by
        unfold macd_rule
        rw [if_pos hlt]
        exact List.mem_singleton_self _
      unfold analyze_technical
      rw [if_neg h]
      simp only [List.mem_append]
      tauto
    · intro hge
      have hm : Signal.mk "MACD" "매도 신호" "bearish" ∈ macd_rule tech := by
        unfold macd_rule
        rw [if_neg hge]
        exact List.mem_singleton_self _
      unfold analyze_technical
      rw [if_neg h]
      simp only [List.mem_append]
      tauto
  · intro h
    unfold analyze_technical
    rw [if_pos h]

/-- Witness for the amended C9: price 1 with the default bundle yields the
bearish MACD signal. -/
theorem macd_emitted_amended_witness :
    Signal.mk "MACD" "매도 신호" "bearish" ∈
      analyze_technical c9Stock defaultTech :=
  ((macd_emitted_amended c9Stock defaultTech).1 (by norm_num [c9Stock])).2
    (by norm_num [defaultTech])

end StockAnalysis
